import Mathlib

/-!
Verification of the mermaid-mcp adapter (src/index.ts) against its
natural-language specification.

The development shallowly embeds the adapter's original logic:

* the markdown extraction inlined in `generateDiagram`
  (`diagram.split('```mermaid')[1].split('```')[0].trim()`),
* the temporary-file staging pipeline of `generateDiagram`,
* the stream-silencing `render` wrapper with its `try`/`finally`,
* the `render_mermaid` and `dryrun_mermaid` tool handlers.

Strings are modelled on `List Char`; JavaScript's `String.prototype.split`
(non-overlapping, left-to-right, non-empty separator) is implemented as
`jsSplitL`.  Effects (filesystem, the external mermaid-cli engine, the
process-wide stdout/stderr write functions) are modelled by explicit state
passing over a `World` record, with the outcome of each external operation
supplied by an `Oracle` record; exceptions are modelled with `Except`.
-/

/-! ## JavaScript string primitives on `List Char` -/

/-- `text.includes(sep)` for JavaScript strings: `sep` occurs as a
contiguous substring of `text`. -/
def jsIncludesL (text sep : List Char) : Bool :=
  sep.isPrefixOf text ||
    match text with
    | [] => false
    | _ :: t => jsIncludesL t sep

/-- The segment of `text` strictly before the first occurrence of `sep`
(all of `text` if `sep` does not occur). -/
def takeUntilL (sep : List Char) : List Char → List Char
  | [] => []
  | c :: t => if sep.isPrefixOf (c :: t) then [] else c :: takeUntilL sep t

/-- The segment of `text` strictly after the first occurrence of `sep`
(`[]` if `sep` does not occur). -/
def dropPastL (sep : List Char) : List Char → List Char
  | [] => []
  | c :: t => if sep.isPrefixOf (c :: t) then t.drop (sep.length - 1) else dropPastL sep t

/-- Worker for `jsSplitL`: scans `text`, accumulating the current segment
in reverse in `acc`, and emits a segment at each non-overlapping
occurrence of `sep`. -/
def splitAux (sep acc : List Char) : List Char → List (List Char)
  | [] => [acc.reverse]
  | c :: t =>
    if sep.isPrefixOf (c :: t) then
      acc.reverse :: splitAux sep [] (t.drop (sep.length - 1))
    else
      splitAux sep (c :: acc) t
termination_by l => l.length
decreasing_by
  · simp only [List.length_drop, List.length_cons]
    omega
  · simp only [List.length_cons]
    omega

/-- JavaScript `text.split(sep)` for a non-empty plain-string separator:
splits at every non-overlapping occurrence of `sep`, scanning left to
right; the separator itself appears in no segment. -/
def jsSplitL (text sep : List Char) : List (List Char) :=
  splitAux sep [] text

/-- The whitespace class removed by JavaScript `String.prototype.trim`
(ASCII whitespace, no-break space, BOM; the exotic Unicode space
characters are omitted as they cannot reach this adapter's fences). -/
def isJsSpace (c : Char) : Bool :=
  c = ' ' || c = '\t' || c = '\n' || c = '\r' ||
    c = '\x0b' || c = '\x0c' || c.toNat = 160 || c.toNat = 65279

/-- JavaScript `text.trim()`: strips leading and trailing whitespace. -/
def trimL (l : List Char) : List Char :=
  ((l.dropWhile isJsSpace).reverse.dropWhile isJsSpace).reverse

/-! ## Markdown extraction (src/index.ts lines 55-60) -/

/-- The opening diagram-fence marker searched for by `generateDiagram`. -/
def fenceOpenL : List Char := "```mermaid".data

/-- The closing fence marker searched for by `generateDiagram`. -/
def fenceCloseL : List Char := "```".data

/-- The content-normalisation step inlined in `generateDiagram`
(src/index.ts lines 55-60):

```
let content = diagram;
if (isMarkdown) {
  content = diagram.includes('```mermaid')
    ? diagram.split('```mermaid')[1].split('```')[0].trim()
    : diagram;
}
```
-/
def extractContentL (diagram : List Char) (isMarkdown : Bool) : List Char :=
  if isMarkdown then
    if jsIncludesL diagram fenceOpenL then
      trimL ((jsSplitL ((jsSplitL diagram fenceOpenL).getD 1 []) fenceCloseL).getD 0 [])
    else diagram
  else diagram

/-- String-level wrapper for the extraction step of `generateDiagram`. -/
def extractContent (diagram : String) (isMarkdown : Bool) : String :=
  String.mk (extractContentL diagram.data isMarkdown)

/-- Modelled from the spec (§4.1 / §8): "the trimmed content strictly
between the opening marker and the next closing fence" — the segment of
the text after the first `` ```mermaid `` up to the first subsequent
`` ``` ``, trimmed.  Used as the comparison point for the extraction
claims; the source's own extraction is `extractContentL`. -/
def specFenceContent (text : List Char) : List Char :=
  trimL (takeUntilL fenceCloseL (dropPastL fenceOpenL text))

/-! ## Byte-sequence encodings (`Buffer.prototype.toString`) -/

/-- The base64 alphabet used by `Buffer.toString('base64')`. -/
def base64Alphabet : List Char :=
  "ABCDEFGHIJKLMNOPQRSTUVWXYZabcdefghijklmnopqrstuvwxyz0123456789+/".data

/-- The base64 digit for a 6-bit value. -/
def b64digit (n : Nat) : Char := base64Alphabet.getD n 'A'

/-- Standard base64 encoding with padding, three input bytes at a time,
as performed by Node's `Buffer.toString('base64')`. -/
def base64EncodeL : List Nat → List Char
  | [] => []
  | [a] => [b64digit (a / 4), b64digit (a % 4 * 16), '=', '=']
  | [a, b] => [b64digit (a / 4), b64digit (a % 4 * 16 + b / 16), b64digit (b % 16 * 4), '=']
  | a :: b :: c :: rest =>
    b64digit (a / 4) :: b64digit (a % 4 * 16 + b / 16) ::
      b64digit (b % 16 * 4 + c / 64) :: b64digit (c % 64) :: base64EncodeL rest

/-- `Buffer.toString('base64')` on a byte sequence. -/
def base64 (bytes : List Nat) : String := String.mk (base64EncodeL bytes)

/-- The Unicode replacement character, emitted for ill-formed UTF-8. -/
def replChar : Char := Char.ofNat 65533

/-- Whether a byte is a UTF-8 continuation byte (`0x80`-`0xbf`). -/
def isCont (b : Nat) : Bool := 128 ≤ b && b ≤ 191

/-- UTF-8 decoding of a byte sequence, as performed by
`Buffer.toString('utf8')`: well-formed sequences decode to their scalar
values, ill-formed bytes become the replacement character. -/
def utf8DecodeL : List Nat → List Char
  | [] => []
  | b1 :: rest =>
    if b1 < 128 then Char.ofNat b1 :: utf8DecodeL rest
    else if b1 < 194 then replChar :: utf8DecodeL rest
    else if b1 < 224 then
      match h2 : rest with
      | b2 :: rest2 =>
        if isCont b2 then Char.ofNat ((b1 - 192) * 64 + (b2 - 128)) :: utf8DecodeL rest2
        else replChar :: utf8DecodeL rest
      | [] => [replChar]
    else if b1 < 240 then
      match h3 : rest with
      | b2 :: b3 :: rest3 =>
        if isCont b2 && isCont b3 then
          let cp := (b1 - 224) * 4096 + (b2 - 128) * 64 + (b3 - 128)
          (if 2048 ≤ cp && !(55296 ≤ cp && cp ≤ 57343) then Char.ofNat cp else replChar)
            :: utf8DecodeL rest3
        else replChar :: utf8DecodeL rest
      | _ => replChar :: utf8DecodeL rest
    else if b1 < 245 then
      match h4 : rest with
      | b2 :: b3 :: b4 :: rest4 =>
        if isCont b2 && isCont b3 && isCont b4 then
          let cp := (b1 - 240) * 262144 + (b2 - 128) * 4096 + (b3 - 128) * 64 + (b4 - 128)
          (if 65536 ≤ cp && cp ≤ 1114111 then Char.ofNat cp else replChar)
            :: utf8DecodeL rest4
        else replChar :: utf8DecodeL rest
      | _ => replChar :: utf8DecodeL rest
    else replChar :: utf8DecodeL rest
termination_by l => l.length
decreasing_by all_goals subst_vars; simp only [List.length_cons]; omega

/-- `Buffer.toString('utf8')` on a byte sequence. -/
def utf8 (bytes : List Nat) : String := String.mk (utf8DecodeL bytes)

/-! ## JSON serialisation (`JSON.stringify` of the reply objects) -/

/-- A hexadecimal digit character (lower case, as emitted by Node). -/
def hexDigit (n : Nat) : Char :=
  if n < 10 then Char.ofNat (48 + n) else Char.ofNat (87 + n)

/-- The escape of one character inside a `JSON.stringify` string value. -/
def jsonEscapeChar (c : Char) : List Char :=
  if c = '"' then ['\\', '"']
  else if c = '\\' then ['\\', '\\']
  else if c = '\n' then ['\\', 'n']
  else if c = '\r' then ['\\', 'r']
  else if c = '\t' then ['\\', 't']
  else if c = '\x08' then ['\\', 'b']
  else if c = '\x0c' then ['\\', 'f']
  else if c.toNat < 32 then
    ['\\', 'u', '0', '0', hexDigit (c.toNat / 16), hexDigit (c.toNat % 16)]
  else [c]

/-- `JSON.stringify` escaping applied to a whole string value. -/
def jsonEscape (s : String) : String := String.mk (s.data.flatMap jsonEscapeChar)

/-- `JSON.stringify(\x7bstatus: "ok"\x7d)`, the success reply text of
`dryrun_mermaid`. -/
def okJson : String := "\x7b\"status\":\"ok\"\x7d"

/-- `JSON.stringify(\x7bstatus: "failed", message: msg\x7d)`, the failure
reply text of `dryrun_mermaid`. -/
def failedJson (msg : String) : String :=
  "\x7b\"status\":\"failed\",\"message\":\"" ++ jsonEscape msg ++ "\"\x7d"

/-! ## Effect model

The adapter's effects — the filesystem, the external mermaid-cli engine,
and the process-wide `process.stdout.write` / `process.stderr.write`
functions — are modelled by explicit state passing over `World`.
Whether each external operation succeeds, and what it produces, is given
by an `Oracle`; a JavaScript `throw` is an `Except.error` carrying a
`Thrown` value. -/

/-- A thrown JavaScript value, as discriminated by the handlers'
`error instanceof Error` test: either an `Error` carrying a `message`
string, or any other thrown value. -/
inductive Thrown where
  | err (message : String)
  | nonError
deriving DecidableEq

/-- The output formats accepted by both tools (`z.enum(["svg", "png", "pdf"])`). -/
inductive Format where
  | svg
  | png
  | pdf
deriving DecidableEq

/-- The format's file extension, interpolated into the output path
(`.${format}`). -/
def Format.ext : Format → String
  | .svg => "svg"
  | .png => "png"
  | .pdf => "pdf"

/-- Outcomes of the external operations a single call performs:
whether `fs.writeFile`, `run` (mermaid-cli), `fs.readFile` and the two
`fs.unlink`s succeed, which values failures throw, which bytes a
successful read returns, and the clock value `new Date().getTime()`. -/
structure Oracle where
  writeOk : Bool
  writeErr : Thrown
  renderOk : Bool
  renderErr : Thrown
  readOk : Bool
  readErr : Thrown
  readBytes : List Nat
  unlinkInputOk : Bool
  unlinkOutputOk : Bool
  unlinkErr : Thrown
  now : Nat
deriving DecidableEq

/-- The mutable world a call runs in: the set of temporary-file paths
currently existing, a log of the writes performed (path and content),
the current `process.stdout.write` / `process.stderr.write` functions
(identified by tokens), the log of engine invocations (recording the two
write functions in place at call time), and the log of attempted
deletions. -/
structure World where
  files : List String
  writes : List (String × String)
  stdoutW : Nat
  stderrW : Nat
  engineCalls : List (Nat × Nat)
  unlinkAttempts : List String
deriving DecidableEq

/-- The token identifying the no-op write function `(() => true)` that
`render` installs. -/
def noopW : Nat := 0

/-- A stateful, possibly-throwing computation: the model of one `async`
JavaScript expression evaluated for its value and its effects. -/
def StM (α : Type) : Type := World → Except Thrown α × World

/-- Model of `return`/plain value. -/
def pureS {α : Type} (a : α) : StM α := fun w => (Except.ok a, w)

/-- Model of `throw`. -/
def throwS {α : Type} (e : Thrown) : StM α := fun w => (Except.error e, w)

/-- Model of `await` sequencing: a thrown error propagates, skipping the
continuation. -/
def bindS {α β : Type} (m : StM α) (k : α → StM β) : StM β :=
  fun w =>
    match m w with
    | (Except.ok a, w1) => k a w1
    | (Except.error e, w1) => (Except.error e, w1)

/-- Model of `try ... catch (e) ...`. -/
def tryCatchS {α : Type} (m : StM α) (h : Thrown → StM α) : StM α :=
  fun w =>
    match m w with
    | (Except.ok a, w1) => (Except.ok a, w1)
    | (Except.error e, w1) => h e w1

/-- Model of `try ... finally ...`: the finaliser runs on both exit
paths; the body's outcome is kept when the finaliser completes
normally. -/
def tryFinallyS {α : Type} (m : StM α) (fin : StM Unit) : StM α :=
  fun w =>
    match m w with
    | (Except.ok a, w1) =>
      match fin w1 with
      | (Except.ok _, w2) => (Except.ok a, w2)
      | (Except.error e2, w2) => (Except.error e2, w2)
    | (Except.error e, w1) =>
      match fin w1 with
      | (Except.ok _, w2) => (Except.error e, w2)
      | (Except.error e2, w2) => (Except.error e2, w2)

/-- `fs.writeFile(path, content, 'utf8')`: on success the file exists and
the write is logged; on failure the oracle's write error is thrown. -/
def writeFileS (o : Oracle) (path content : String) : StM Unit :=
  fun w =>
    if o.writeOk then
      (Except.ok (), { w with files := path :: w.files, writes := w.writes ++ [(path, content)] })
    else (Except.error o.writeErr, w)

/-- `run(inputPath, outputPath, ...)`, the external mermaid-cli engine:
records the stdout/stderr write functions in place at call time; on
success it creates the output file, on failure it throws the oracle's
render error.  The input path and requested output format do not affect
the model's behaviour beyond being passed along, as the engine is an
external collaborator. -/
def runEngineS (o : Oracle) (_inputPath outputPath : String) (_format : Format) : StM Unit :=
  fun w =>
    let w1 := { w with engineCalls := w.engineCalls ++ [(w.stdoutW, w.stderrW)] }
    if o.renderOk then (Except.ok (), { w1 with files := outputPath :: w1.files })
    else (Except.error o.renderErr, w1)

/-- `fs.readFile(path)`: returns the oracle's bytes or throws its read
error. -/
def readFileS (o : Oracle) : StM (List Nat) :=
  fun w => if o.readOk then (Except.ok o.readBytes, w) else (Except.error o.readErr, w)

/-- `fs.unlink(path)`: the attempt is logged; on success the file is
removed, and when the oracle marks this unlink as failing the file
remains on disk and the deletion error is thrown (the callers always
swallow it with `.catch(() => \x7b\x7d)`). -/
def unlinkS (ok : Bool) (e : Thrown) (path : String) : StM Unit :=
  fun w =>
    let w1 := { w with unlinkAttempts := w.unlinkAttempts ++ [path] }
    if ok then (Except.ok (), { w1 with files := w1.files.filter (fun p => !(p == path)) })
    else (Except.error e, w1)

/-- `promise.catch(() => \x7b\x7d)`: swallow any error. -/
def catchAllS (m : StM Unit) : StM Unit := tryCatchS m (fun _ => pureS ())

/-- `process.stdout.write = f`. -/
def setStdoutS (f : Nat) : StM Unit := fun w => (Except.ok (), { w with stdoutW := f })

/-- `process.stderr.write = f`. -/
def setStderrS (f : Nat) : StM Unit := fun w => (Except.ok (), { w with stderrW := f })

/-! ## The `render` wrapper (src/index.ts lines 14-42) -/

/-- Embedding of `render`: captures the current stdout/stderr write
functions, installs the no-op writers, invokes the engine, and restores
the captured originals in a `finally` block. -/
def render (o : Oracle) (inputPath outputPath : String) (format : Format) : StM Unit :=
  fun w =>
    let originalStdout := w.stdoutW
    let originalStderr := w.stderrW
    tryFinallyS
      (bindS (setStdoutS noopW) fun _ =>
        bindS (setStderrS noopW) fun _ =>
          runEngineS o inputPath outputPath format)
      (bindS (setStdoutS originalStdout) fun _ => setStderrS originalStderr)
      w

/-! ## `generateDiagram` (src/index.ts lines 44-75) -/

/-- `os.tmpdir()` in the model. -/
def tmpdir : String := "/tmp"

/-- `join(os.tmpdir(), ` input-${timestamp}.mmd `)`. -/
def inputPathOf (timestamp : Nat) : String :=
  tmpdir ++ "/input-" ++ toString timestamp ++ ".mmd"

/-- "${join(os.tmpdir(), ` output-${timestamp} `)}.${format}". -/
def outputPathOf (timestamp : Nat) (format : Format) : String :=
  tmpdir ++ "/output-" ++ toString timestamp ++ "." ++ format.ext

/-- Embedding of `generateDiagram`: build the staged paths, extract the
diagram body (`extractContent`, src lines 55-60), write the input file,
render, read the output file, then delete both staged files with
failures swallowed (`Promise.all` of the two `unlink`s, modelled
sequentially), and return the output bytes. -/
def generateDiagram (o : Oracle) (diagram : String) (format : Format)
    (isMarkdown : Bool) (timestamp : Nat) : StM (List Nat) :=
  let inputPath := inputPathOf timestamp
  let outputPath := outputPathOf timestamp format
  let content := extractContent diagram isMarkdown
  bindS (writeFileS o inputPath content) fun _ =>
    bindS (render o inputPath outputPath format) fun _ =>
      bindS (readFileS o) fun output =>
        bindS (catchAllS (unlinkS o.unlinkInputOk o.unlinkErr inputPath)) fun _ =>
          bindS (catchAllS (unlinkS o.unlinkOutputOk o.unlinkErr outputPath)) fun _ =>
            pureS output

/-! ## The tool handlers (src/index.ts lines 78-160) -/

/-- One content block of a tool reply. -/
inductive ContentBlock where
  | text (text : String)
  | image (mimeType : String) (data : String)
  | resource (uri : String) (mimeType : String) (blob : String)
deriving DecidableEq

/-- The MIME type of the raster reply block. -/
def mimePng : String := "image/png"

/-- The MIME type of the document reply block. -/
def mimePdf : String := "application/pdf"

/-- The localized failure label of `render_mermaid`
("an error occurred while generating the diagram"). -/
def genErrorLabel : String := "図の生成中にエラーが発生しました"

/-- The generic placeholder of `render_mermaid` for a thrown value that
is not an `Error` ("unknown error"). -/
def unknownErrorText : String := "不明なエラー"

/-- `error instanceof Error ? error.message : '不明なエラー'` in the
`render_mermaid` handler. -/
def renderErrMsg : Thrown → String
  | .err m => m
  | .nonError => unknownErrorText

/-- `error instanceof Error ? error.message : 'Occurred an error'` in the
`dryrun_mermaid` handler. -/
def dryrunErrMsg : Thrown → String
  | .err m => m
  | .nonError => "Occurred an error"

/-- Embedding of the `render_mermaid` handler: run the pipeline with the
current clock value as timestamp, shape the reply by format (`png` →
image block, `pdf` → resource block with the `${timestamp}.pdf` URI,
otherwise a text block of the bytes decoded as UTF-8); on any failure
rethrow an `Error` with the localized label and the underlying
message. -/
def renderMermaidHandler (o : Oracle) (diagram : String) (format : Format)
    (isMarkdown : Bool) : StM (List ContentBlock) :=
  tryCatchS
    (bindS (pureS o.now) fun timestamp =>
      bindS (generateDiagram o diagram format isMarkdown timestamp) fun output =>
        pureS
          (if format = Format.png then
            [ContentBlock.image mimePng (base64 output)]
          else if format = Format.pdf then
            [ContentBlock.resource (toString timestamp ++ ".pdf") mimePdf (base64 output)]
          else
            [ContentBlock.text (utf8 output)]))
    (fun e => throwS (Thrown.err (genErrorLabel ++ ": " ++ renderErrMsg e)))

/-- Embedding of the `dryrun_mermaid` handler: run the same pipeline,
discard the bytes, and always answer with a single text block —
`okJson` on success, `failedJson` of the error message on failure. -/
def dryrunMermaidHandler (o : Oracle) (diagram : String) (format : Format)
    (isMarkdown : Bool) : StM (List ContentBlock) :=
  tryCatchS
    (bindS (pureS o.now) fun timestamp =>
      bindS (generateDiagram o diagram format isMarkdown timestamp) fun _ =>
        pureS [ContentBlock.text okJson])
    (fun e => pureS [ContentBlock.text (failedJson (dryrunErrMsg e))])

/-! ## Lemmas about the string primitives -/

/-- A non-empty separator never occurs in the empty text. -/
theorem jsIncludesL_nil (sep : List Char) (hsep : sep ≠ []) :
    jsIncludesL [] sep = false := by
  cases sep with
  | nil => exact absurd rfl hsep
  | cons a s => rfl

/-- When the separator does not occur, `takeUntilL` keeps the whole
text. -/
theorem takeUntilL_of_not_includes (sep text : List Char)
    (h : jsIncludesL text sep = false) : takeUntilL sep text = text := by
  induction text with
  | nil => rfl
  | cons c t ih =>
    rw [jsIncludesL] at h
    rcases Bool.or_eq_false_iff.mp h with ⟨h1, h2⟩
    rw [takeUntilL, if_neg (by simp [h1]), ih h2]

/-- Characterisation of `splitAux` by the first occurrence of the
separator: the next emitted segment is `takeUntilL`, and the remaining
segments are the split of `dropPastL`. -/
theorem splitAux_spec (sep : List Char) (hsep : sep ≠ []) :
    ∀ (n : Nat) (text : List Char), text.length ≤ n → ∀ (acc : List Char),
      splitAux sep acc text =
        if jsIncludesL text sep then
          (acc.reverse ++ takeUntilL sep text) :: jsSplitL (dropPastL sep text) sep
        else [acc.reverse ++ text] := by
  intro n
  induction n with
  | zero =>
    intro text hlen acc
    have htext : text = [] := List.length_eq_zero.mp (Nat.le_zero.mp hlen)
    subst htext
    rw [splitAux, jsIncludesL_nil sep hsep, if_neg (by simp)]
    simp
  | succ n ih =>
    intro text hlen acc
    cases text with
    | nil =>
      rw [splitAux, jsIncludesL_nil sep hsep, if_neg (by simp)]
      simp
    | cons c t =>
      by_cases hpre : sep.isPrefixOf (c :: t) = true
      · have hin : jsIncludesL (c :: t) sep = true := by
          rw [jsIncludesL, hpre, Bool.true_or]
        rw [splitAux, if_pos hpre, hin, if_pos rfl, takeUntilL, if_pos hpre,
          dropPastL, if_pos hpre]
        simp [jsSplitL]
      · have hpre' : sep.isPrefixOf (c :: t) = false := Bool.eq_false_iff.mpr hpre
        have hlen' : t.length ≤ n := by
          simp only [List.length_cons] at hlen
          omega
        have hstep := ih t hlen' (c :: acc)
        by_cases h2 : jsIncludesL t sep = true
        · have hin : jsIncludesL (c :: t) sep = true := by
            rw [jsIncludesL, hpre', Bool.false_or]
            exact h2
          rw [splitAux, if_neg hpre, hstep, if_pos h2, hin, if_pos rfl,
            takeUntilL, if_neg hpre, dropPastL, if_neg hpre]
          simp
        · have h2' : jsIncludesL t sep = false := Bool.eq_false_iff.mpr h2
          have hin : jsIncludesL (c :: t) sep = false := by
            rw [jsIncludesL, hpre', Bool.false_or]
            exact h2'
          rw [splitAux, if_neg hpre, hstep, if_neg h2, hin, if_neg (by simp)]
          simp

/-- Element `[0]` of a JavaScript split is the text before the first
separator occurrence. -/
theorem jsSplitL_getD_zero (sep text : List Char) (hsep : sep ≠ []) :
    (jsSplitL text sep).getD 0 [] = takeUntilL sep text := by
  rw [jsSplitL, splitAux_spec sep hsep text.length text le_rfl []]
  by_cases h : jsIncludesL text sep = true
  · rw [if_pos h]
    simp
  · have h' : jsIncludesL text sep = false := Bool.eq_false_iff.mpr h
    rw [if_neg h, takeUntilL_of_not_includes sep text h']
    simp

/-- Element `[1]` of a JavaScript split, when the separator occurs, is
the text after the first occurrence up to the next one. -/
theorem jsSplitL_getD_one (sep text : List Char) (hsep : sep ≠ [])
    (hin : jsIncludesL text sep = true) :
    (jsSplitL text sep).getD 1 [] = takeUntilL sep (dropPastL sep text) := by
  rw [jsSplitL, splitAux_spec sep hsep text.length text le_rfl [], if_pos hin,
    List.getD_cons_succ]
  exact jsSplitL_getD_zero sep (dropPastL sep text) hsep

/-- Occurrence of a pattern implies occurrence of any of its
prefixes. -/
theorem jsIncludesL_mono (text s1 s2 : List Char) (hp : s2 <+: s1)
    (h : jsIncludesL text s1 = true) : jsIncludesL text s2 = true := by
  induction text with
  | nil =>
    rw [jsIncludesL] at h ⊢
    simp only [Bool.or_false] at h ⊢
    rw [ List.isPrefixOf_iff_prefix] at h ⊢
    exact hp.trans h
  | cons c t ih =>
    rw [jsIncludesL] at h ⊢
    rcases Bool.or_eq_true_iff.mp h with h1 | h2
    · rw [ List.isPrefixOf_iff_prefix] at h1
      have hb : s2.isPrefixOf (c :: t) = true := List.isPrefixOf_iff_prefix.mpr (hp.trans h1)
      rw [hb, Bool.true_or]
    · rw [ih h2, Bool.or_true]

/-- Unfolding of the fenced-extraction branch of `extractContentL` in
terms of first occurrences: the extracted body is the text after the
first opening marker, cut at the next opening marker (JavaScript `split`
is non-overlapping), then cut at the next closing fence, then
trimmed. -/
theorem extractContentL_of_includes (d : List Char)
    (h : jsIncludesL d fenceOpenL = true) :
    extractContentL d true =
      trimL (takeUntilL fenceCloseL (takeUntilL fenceOpenL (dropPastL fenceOpenL d))) := by
  rw [extractContentL, if_pos rfl, if_pos h,
    jsSplitL_getD_one fenceOpenL d (by decide) h,
    jsSplitL_getD_zero fenceCloseL (takeUntilL fenceOpenL (dropPastL fenceOpenL d)) (by decide)]

/-- An occurring separator is no longer than the text it occurs in. -/
theorem jsIncludesL_length (sep : List Char) :
    ∀ l, jsIncludesL l sep = true → sep.length ≤ l.length := by
  intro l
  induction l with
  | nil =>
    intro h
    rw [jsIncludesL] at h
    simp only [Bool.or_false] at h
    rw [ List.isPrefixOf_iff_prefix] at h
    exact h.length_le
  | cons c t ih =>
    intro h
    rw [jsIncludesL] at h
    rcases Bool.or_eq_true_iff.mp h with h1 | h2
    · rw [ List.isPrefixOf_iff_prefix] at h1
      exact h1.length_le
    · have := ih h2
      simp only [List.length_cons]
      omega

/-- `takeUntilL` yields a leading segment of the text. -/
theorem takeUntilL_prefix_self (sep : List Char) :
    ∀ l, takeUntilL sep l <+: l := by
  intro l
  induction l with
  | nil => exact List.nil_prefix
  | cons c t ih =>
    rw [takeUntilL]
    by_cases hp : sep.isPrefixOf (c :: t) = true
    · rw [if_pos hp]
      exact List.nil_prefix
    · rw [if_neg hp]
      exact List.cons_prefix_cons.mpr ⟨rfl, ih⟩

/-- Cutting at the first separator occurrence is insensitive to what
follows a leading segment that already contains the separator: if `s`
is a leading segment of `t` and the separator occurs in `s`, the first
occurrence in `t` is the first occurrence in `s`. -/
theorem takeUntilL_eq_of_includes (sep : List Char) (hsep : sep ≠ []) :
    ∀ (s t : List Char), s <+: t → jsIncludesL s sep = true →
      takeUntilL sep s = takeUntilL sep t := by
  intro s
  induction s with
  | nil =>
    intro t hpfx hinc
    rw [jsIncludesL_nil sep hsep] at hinc
    exact Bool.noConfusion hinc
  | cons c s2 ih =>
    intro t hpfx hinc
    cases t with
    | nil => exact absurd (List.prefix_nil.mp hpfx) (by simp)
    | cons d t2 =>
      obtain ⟨hcd, hpfx2⟩ := List.cons_prefix_cons.mp hpfx
      subst hcd
      by_cases hp : sep.isPrefixOf (c :: s2) = true
      · have hpT : sep.isPrefixOf (c :: t2) = true := by
          rw [ List.isPrefixOf_iff_prefix] at hp ⊢
          exact hp.trans (List.cons_prefix_cons.mpr ⟨rfl, hpfx2⟩)
        rw [takeUntilL, if_pos hp, takeUntilL, if_pos hpT]
      · have hp2 : sep.isPrefixOf (c :: s2) = false := Bool.eq_false_iff.mpr hp
        have hinc2 : jsIncludesL s2 sep = true := by
          rw [jsIncludesL, hp2, Bool.false_or] at hinc
          exact hinc
        have hlen : sep.length ≤ s2.length := jsIncludesL_length sep s2 hinc2
        have hpT : sep.isPrefixOf (c :: t2) = false := by
          cases hq : sep.isPrefixOf (c :: t2) with
          | false => rfl
          | true =>
            rw [ List.isPrefixOf_iff_prefix] at hq
            have hcs : (c :: s2) <+: (c :: t2) := List.cons_prefix_cons.mpr ⟨rfl, hpfx2⟩
            rcases List.prefix_or_prefix_of_prefix hq hcs with hx | hx
            · rw [← List.isPrefixOf_iff_prefix] at hx
              rw [hx] at hp2
              exact Bool.noConfusion hp2
            · have hle := hx.length_le
              simp only [List.length_cons] at hle
              omega
        rw [takeUntilL, if_neg (by simp [hp2]), takeUntilL, if_neg (by simp [hpT]),
          ih t2 hpfx2 hinc2]

/-- The staged input and output paths of one call are distinct
strings. -/
theorem inputPathOf_ne_outputPathOf (ts : Nat) (f : Format) :
    inputPathOf ts ≠ outputPathOf ts f := by
  unfold inputPathOf outputPathOf tmpdir
  intro h
  have hd := congrArg String.data h
  simp only [String.data_append] at hd
  simp at hd

/-! ## Sample oracles and worlds used by witnesses and counterexamples -/

/-- An oracle on which every external operation succeeds; the read
returns the bytes of "ab" and the clock reads 5. -/
def okOracle : Oracle :=
  ⟨true, Thrown.nonError, true, Thrown.nonError, true, Thrown.nonError,
    [97, 98], true, true, Thrown.nonError, 5⟩

/-- An oracle on which the external engine fails (as on an invalid
diagram definition), throwing an `Error` with message "boom". -/
def renderFailOracle : Oracle :=
  ⟨true, Thrown.nonError, false, Thrown.err ("boom"), true, Thrown.nonError,
    [], true, true, Thrown.nonError, 7⟩

/-- An oracle on which rendering succeeds but reading the produced
output file fails. -/
def readFailOracle : Oracle :=
  ⟨true, Thrown.nonError, true, Thrown.nonError, false, Thrown.err ("gone"),
    [], true, true, Thrown.nonError, 9⟩

/-- An oracle on which the pipeline succeeds but deleting the staged
input file fails (for example with a permission error), while deleting
the output file succeeds. -/
def unlinkFailOracle : Oracle :=
  ⟨true, Thrown.nonError, true, Thrown.nonError, true, Thrown.nonError,
    [97, 98], false, true, Thrown.err ("eperm"), 11⟩

/-- A world with no temporary files, no logs, and distinguishable
original stdout/stderr write functions. -/
def emptyWorld : World := ⟨[], [], 1, 2, [], []⟩

/-! ## The claims -/

/-- C5: for every string, extraction with the markdown flag false is the
identity — the content staged for rendering (the content recorded by the
input-file write of `generateDiagram`) equals the text unchanged. -/
theorem C5_extract_identity :
    (∀ d : String, extractContent d false = d) ∧
    (∀ (o : Oracle) (d : String) (f : Format) (ts : Nat) (w : World),
      o.writeOk = true →
      (generateDiagram o d f false ts w).2.writes = w.writes ++ [(inputPathOf ts, d)]) := by
  constructor
  · intro d
    rfl
  · intro o d f ts w hw
    unfold generateDiagram writeFileS render runEngineS readFileS unlinkS catchAllS
      tryCatchS tryFinallyS bindS pureS setStdoutS setStderrS
    cases hro : o.renderOk <;> cases hrd : o.readOk <;>
      cases hui : o.unlinkInputOk <;> cases huo : o.unlinkOutputOk <;>
      simp [hw, hro, hrd, hui, huo, extractContent, extractContentL]

/-- Witness for C5 at a concrete diagram, oracle and world. -/
theorem C5_extract_identity_witness :
    extractContent ("graph TD") false = "graph TD" ∧
    okOracle.writeOk = true ∧
    (generateDiagram okOracle ("graph TD") Format.svg false 5 emptyWorld).2.writes
      = emptyWorld.writes ++ [(inputPathOf 5, "graph TD")] :=
  ⟨C5_extract_identity.1 ("graph TD"), rfl,
    C5_extract_identity.2 okOracle ("graph TD") Format.svg 5 emptyWorld rfl⟩

/-- C7: for every markdown-flagged input with no occurrence of the
diagram-fence marker, extraction returns the original text unchanged,
and no error is raised. -/
theorem C7_no_fence_fallback (d : String)
    (h : jsIncludesL d.data fenceOpenL = false) :
    extractContent d true = d := by
  rw [extractContent, extractContentL, if_pos rfl, if_neg (by simp [h])]

/-- Witness for C7 at a concrete fence-free input. -/
theorem C7_no_fence_fallback_witness :
    jsIncludesL ("graph TD; A-->B;").data fenceOpenL = false ∧
    extractContent ("graph TD; A-->B;") true = "graph TD; A-->B;" :=
  ⟨by decide, C7_no_fence_fallback ("graph TD; A-->B;") (by decide)⟩

/-- C9: extraction recognises the opening fence only via the exact
substring occurrence of the marker: any markdown-flagged input is
either returned unchanged or contains the exact marker, and the variant
spellings with a space after the backticks or different capitalisation
are returned unchanged. -/
theorem C9_exact_marker_only :
    (∀ d : String, extractContent d true = d ∨ jsIncludesL d.data fenceOpenL = true) ∧
    extractContent ("``` mermaid\ngraph TD\n```") true = "``` mermaid\ngraph TD\n```" ∧
    extractContent ("```Mermaid\ngraph TD\n```") true = "```Mermaid\ngraph TD\n```" := by
  refine ⟨?_, by decide, by decide⟩
  intro d
  by_cases h : jsIncludesL d.data fenceOpenL = true
  · exact Or.inr h
  · have h' : jsIncludesL d.data fenceOpenL = false := Bool.eq_false_iff.mpr h
    left
    rw [extractContent, extractContentL, if_pos rfl, if_neg (by simp [h'])]

/-- C6 counterexample: on the markdown-flagged input
`` ```mermaida````mermaid ``, which contains the opening marker and a
closing fence after it, the code extracts "a`" (JavaScript `split` cuts
the segment at the second, overlapping `` ```mermaid `` occurrence
before looking for the closing fence), while the trimmed content
strictly between the first opening marker and the next closing fence is
"a" — so the claim as stated is false at this input. -/
theorem C6_counterexample :
    jsIncludesL ("```mermaida````mermaid").data fenceOpenL = true ∧
    jsIncludesL (dropPastL fenceOpenL ("```mermaida````mermaid").data) fenceCloseL = true ∧
    extractContent ("```mermaida````mermaid") true = "a`" ∧
    String.mk (specFenceContent ("```mermaida````mermaid").data) = "a" ∧
    extractContent ("```mermaida````mermaid") true
      ≠ String.mk (specFenceContent ("```mermaida````mermaid").data) :=
  ⟨by decide, by decide,
    by
      rw [extractContent, extractContentL_of_includes ("```mermaida````mermaid").data (by decide)]
      decide,
    by decide,
    by
      rw [extractContent, extractContentL_of_includes ("```mermaida````mermaid").data (by decide)]
      decide⟩

/-- C6 (amended): for every markdown-flagged input in which the opening
marker occurs and a closing fence occurs in the segment strictly
between the first opening marker and the next occurrence of the opening
marker (or the end of the text, when there is no further occurrence) —
that is, the first fenced block is closed before any further opener —
extraction returns exactly the trimmed content strictly between the
first opening marker and the next closing fence, with both fence
markers excluded. -/
theorem C6_fenced_extraction_amended (d : String)
    (h1 : jsIncludesL d.data fenceOpenL = true)
    (h2 : jsIncludesL (takeUntilL fenceOpenL (dropPastL fenceOpenL d.data))
        fenceCloseL = true) :
    extractContent d true = String.mk (specFenceContent d.data) := by
  rw [extractContent, extractContentL_of_includes d.data h1, specFenceContent,
    takeUntilL_eq_of_includes fenceCloseL (by decide)
      (takeUntilL fenceOpenL (dropPastL fenceOpenL d.data))
      (dropPastL fenceOpenL d.data)
      (takeUntilL_prefix_self fenceOpenL (dropPastL fenceOpenL d.data)) h2]

/-- Witness for C6 (amended): a single-block markdown document, and a
document with two separate fenced mermaid blocks in which the first
block is closed before the second opener — the newly covered shape. -/
theorem C6_fenced_extraction_amended_witness :
    (jsIncludesL ("# t\n```mermaid\ngraph TD\n```\nrest").data fenceOpenL = true ∧
      jsIncludesL (takeUntilL fenceOpenL
          (dropPastL fenceOpenL ("# t\n```mermaid\ngraph TD\n```\nrest").data))
        fenceCloseL = true ∧
      extractContent ("# t\n```mermaid\ngraph TD\n```\nrest") true
        = String.mk (specFenceContent ("# t\n```mermaid\ngraph TD\n```\nrest").data) ∧
      extractContent ("# t\n```mermaid\ngraph TD\n```\nrest") true = "graph TD") ∧
    (jsIncludesL ("```mermaid\nA\n```\ntext\n```mermaid\nB\n```").data fenceOpenL = true ∧
      jsIncludesL (takeUntilL fenceOpenL
          (dropPastL fenceOpenL ("```mermaid\nA\n```\ntext\n```mermaid\nB\n```").data))
        fenceCloseL = true ∧
      extractContent ("```mermaid\nA\n```\ntext\n```mermaid\nB\n```") true
        = String.mk
            (specFenceContent ("```mermaid\nA\n```\ntext\n```mermaid\nB\n```").data) ∧
      extractContent ("```mermaid\nA\n```\ntext\n```mermaid\nB\n```") true = "A") :=
  ⟨⟨by decide, by decide,
    C6_fenced_extraction_amended ("# t\n```mermaid\ngraph TD\n```\nrest")
      (by decide) (by decide),
    by
      rw [extractContent,
        extractContentL_of_includes ("# t\n```mermaid\ngraph TD\n```\nrest").data
          (by decide)]
      decide⟩,
    ⟨by decide, by decide,
      C6_fenced_extraction_amended ("```mermaid\nA\n```\ntext\n```mermaid\nB\n```")
        (by decide) (by decide),
      by
        rw [extractContent,
          extractContentL_of_includes
            ("```mermaid\nA\n```\ntext\n```mermaid\nB\n```").data (by decide)]
        decide⟩⟩

/-- C10: for every markdown-flagged input containing the opening marker
but no closing fence after it, extraction returns the trimmed remainder
of the text after the first opening marker. -/
theorem C10_unterminated_fence (d : String)
    (h1 : jsIncludesL d.data fenceOpenL = true)
    (h2 : jsIncludesL (dropPastL fenceOpenL d.data) fenceCloseL = false) :
    extractContent d true = String.mk (trimL (dropPastL fenceOpenL d.data)) := by
  have hpp : fenceCloseL <+: fenceOpenL := List.isPrefixOf_iff_prefix.mp (by decide)
  have hopen : jsIncludesL (dropPastL fenceOpenL d.data) fenceOpenL = false := by
    cases hcl : jsIncludesL (dropPastL fenceOpenL d.data) fenceOpenL with
    | false => rfl
    | true =>
      have hc := jsIncludesL_mono (dropPastL fenceOpenL d.data) fenceOpenL fenceCloseL hpp hcl
      rw [hc] at h2
      exact Bool.noConfusion h2
  rw [extractContent, extractContentL_of_includes d.data h1,
    takeUntilL_of_not_includes fenceOpenL (dropPastL fenceOpenL d.data) hopen,
    takeUntilL_of_not_includes fenceCloseL (dropPastL fenceOpenL d.data) h2]

/-- Witness for C10 at a concrete input with an unterminated fence. -/
theorem C10_unterminated_fence_witness :
    jsIncludesL ("```mermaid\ngraph TD").data fenceOpenL = true ∧
    jsIncludesL (dropPastL fenceOpenL ("```mermaid\ngraph TD").data) fenceCloseL = false ∧
    extractContent ("```mermaid\ngraph TD") true = "graph TD" :=
  ⟨by decide, by decide, by
    rw [C10_unterminated_fence ("```mermaid\ngraph TD") (by decide) (by decide)]
    decide⟩

/-- C1 counterexample: on a call whose render step fails (an invalid
diagram), `generateDiagram` propagates the error without attempting any
deletion, and the staged input file remains on disk afterwards — so the
claim that cleanup of both staged paths is attempted on every outcome is
false at this input. -/
theorem C1_counterexample :
    (generateDiagram renderFailOracle ("graph TD") Format.svg false 7 emptyWorld).1
      = Except.error (Thrown.err ("boom")) ∧
    inputPathOf 7
      ∈ (generateDiagram renderFailOracle ("graph TD") Format.svg false 7 emptyWorld).2.files ∧
    (generateDiagram renderFailOracle ("graph TD") Format.svg false 7 emptyWorld).2.unlinkAttempts
      = [] :=
  ⟨rfl, by decide, rfl⟩

/-- C1 (amended): deletion of the two staged paths is attempted, once
each, exactly on the success path — after write, render and read all
succeed — regardless of whether the deletions themselves succeed; when
the deletions also succeed, no staged file remains; a failed deletion
is swallowed (the call still returns the output bytes) but leaves that
staged file on disk; and when the render step or the output read fails,
no deletion is attempted and the staged input file (and, after a
successful render, the output file) remains. -/
theorem C1_cleanup_amended :
    (∀ (o : Oracle) (d : String) (f : Format) (m : Bool) (ts : Nat) (w : World),
      o.writeOk = true → o.renderOk = true → o.readOk = true →
      (generateDiagram o d f m ts w).2.unlinkAttempts
        = w.unlinkAttempts ++ [inputPathOf ts, outputPathOf ts f]) ∧
    (∀ (o : Oracle) (d : String) (f : Format) (m : Bool) (ts : Nat) (w : World),
      o.writeOk = true → o.renderOk = true → o.readOk = true →
      o.unlinkInputOk = true → o.unlinkOutputOk = true →
      inputPathOf ts ∉ (generateDiagram o d f m ts w).2.files ∧
        outputPathOf ts f ∉ (generateDiagram o d f m ts w).2.files) ∧
    (∀ (o : Oracle) (d : String) (f : Format) (m : Bool) (ts : Nat) (w : World),
      o.writeOk = true → o.renderOk = true → o.readOk = true →
      o.unlinkInputOk = false → o.unlinkOutputOk = true →
      (generateDiagram o d f m ts w).1 = Except.ok o.readBytes ∧
        inputPathOf ts ∈ (generateDiagram o d f m ts w).2.files) ∧
    (∀ (o : Oracle) (d : String) (f : Format) (m : Bool) (ts : Nat) (w : World),
      o.writeOk = true → o.renderOk = false →
      (generateDiagram o d f m ts w).2.unlinkAttempts = w.unlinkAttempts ∧
        inputPathOf ts ∈ (generateDiagram o d f m ts w).2.files) ∧
    (∀ (o : Oracle) (d : String) (f : Format) (m : Bool) (ts : Nat) (w : World),
      o.writeOk = true → o.renderOk = true → o.readOk = false →
      (generateDiagram o d f m ts w).2.unlinkAttempts = w.unlinkAttempts ∧
        inputPathOf ts ∈ (generateDiagram o d f m ts w).2.files ∧
        outputPathOf ts f ∈ (generateDiagram o d f m ts w).2.files) := by
  refine ⟨?_, ?_, ?_, ?_, ?_⟩
  · intro o d f m ts w h1 h2 h3
    unfold generateDiagram writeFileS render runEngineS readFileS unlinkS catchAllS
      tryCatchS tryFinallyS bindS pureS setStdoutS setStderrS
    cases hui : o.unlinkInputOk <;> cases huo : o.unlinkOutputOk <;>
      simp [h1, h2, h3, hui, huo]
  · intro o d f m ts w h1 h2 h3 h4 h5
    unfold generateDiagram writeFileS render runEngineS readFileS unlinkS catchAllS
      tryCatchS tryFinallyS bindS pureS setStdoutS setStderrS
    simp [h1, h2, h3, h4, h5, List.mem_filter]
  · intro o d f m ts w h1 h2 h3 h4 h5
    have hne := inputPathOf_ne_outputPathOf ts f
    unfold generateDiagram writeFileS render runEngineS readFileS unlinkS catchAllS
      tryCatchS tryFinallyS bindS pureS setStdoutS setStderrS
    simp [h1, h2, h3, h4, h5, List.mem_filter, hne]
  · intro o d f m ts w h1 h2
    unfold generateDiagram writeFileS render runEngineS readFileS unlinkS catchAllS
      tryCatchS tryFinallyS bindS pureS setStdoutS setStderrS
    simp [h1, h2]
  · intro o d f m ts w h1 h2 h3
    unfold generateDiagram writeFileS render runEngineS readFileS unlinkS catchAllS
      tryCatchS tryFinallyS bindS pureS setStdoutS setStderrS
    simp [h1, h2, h3]

/-- Witness for C1 (amended): the five cases at concrete oracles — all
operations succeeding, the input-unlink failing, the render failing and
the read failing. -/
theorem C1_cleanup_amended_witness :
    ((generateDiagram okOracle ("graph TD") Format.svg false 5 emptyWorld).2.unlinkAttempts
        = emptyWorld.unlinkAttempts ++ [inputPathOf 5, outputPathOf 5 Format.svg]) ∧
    (inputPathOf 5
        ∉ (generateDiagram okOracle ("graph TD") Format.svg false 5 emptyWorld).2.files ∧
      outputPathOf 5 Format.svg
        ∉ (generateDiagram okOracle ("graph TD") Format.svg false 5 emptyWorld).2.files) ∧
    ((generateDiagram unlinkFailOracle ("graph TD") Format.svg false 11 emptyWorld).1
        = Except.ok unlinkFailOracle.readBytes ∧
      inputPathOf 11
        ∈ (generateDiagram unlinkFailOracle ("graph TD") Format.svg false 11 emptyWorld).2.files) ∧
    ((generateDiagram renderFailOracle ("graph TD") Format.svg false 7 emptyWorld).2.unlinkAttempts
        = emptyWorld.unlinkAttempts ∧
      inputPathOf 7
        ∈ (generateDiagram renderFailOracle ("graph TD") Format.svg false 7 emptyWorld).2.files) ∧
    ((generateDiagram readFailOracle ("graph TD") Format.svg false 9 emptyWorld).2.unlinkAttempts
        = emptyWorld.unlinkAttempts ∧
      inputPathOf 9
        ∈ (generateDiagram readFailOracle ("graph TD") Format.svg false 9 emptyWorld).2.files ∧
      outputPathOf 9 Format.svg
        ∈ (generateDiagram readFailOracle ("graph TD") Format.svg false 9 emptyWorld).2.files) :=
  ⟨C1_cleanup_amended.1 okOracle ("graph TD") Format.svg false 5 emptyWorld rfl rfl rfl,
    C1_cleanup_amended.2.1 okOracle ("graph TD") Format.svg false 5 emptyWorld
      rfl rfl rfl rfl rfl,
    C1_cleanup_amended.2.2.1 unlinkFailOracle ("graph TD") Format.svg false 11 emptyWorld
      rfl rfl rfl rfl rfl,
    C1_cleanup_amended.2.2.2.1 renderFailOracle ("graph TD") Format.svg false 7 emptyWorld
      rfl rfl,
    C1_cleanup_amended.2.2.2.2 readFailOracle ("graph TD") Format.svg false 9 emptyWorld
      rfl rfl rfl⟩

/-- C2: for every oracle, input and world, the `dryrun_mermaid` handler
completes without throwing and returns exactly one text content block:
the ok JSON object when the pipeline succeeds, and the failed JSON
object carrying the error text when any step of the pipeline fails. -/
theorem C2_dryrun_reply :
    ∀ (o : Oracle) (d : String) (f : Format) (m : Bool) (w : World),
      (dryrunMermaidHandler o d f m w).1 =
        Except.ok [ContentBlock.text
          (match (generateDiagram o d f m o.now w).1 with
            | Except.ok _ => okJson
            | Except.error e => failedJson (dryrunErrMsg e))] := by
  intro o d f m w
  unfold dryrunMermaidHandler tryCatchS bindS pureS
  rcases hg : generateDiagram o d f m o.now w with ⟨r, w1⟩
  cases r <;> simp [hg]

/-- C3: for every oracle and initial world, `render` restores the
process-wide stdout and stderr write functions to exactly the values
captured before the invocation, on both exit paths, and the no-op
replacements are the write functions in place at the moment the external
engine is invoked. -/
theorem C3_streams_restored :
    ∀ (o : Oracle) (ip op : String) (f : Format) (w : World),
      (render o ip op f w).2.stdoutW = w.stdoutW ∧
      (render o ip op f w).2.stderrW = w.stderrW ∧
      (render o ip op f w).2.engineCalls = w.engineCalls ++ [(noopW, noopW)] := by
  intro o ip op f w
  unfold render runEngineS tryFinallyS bindS setStdoutS setStderrS
  cases o.renderOk <;> simp

/-- C4: every successful `render_mermaid` call replies with exactly one
content block shaped by the requested format — png: an image block with
MIME type image/png and the bytes base64-encoded; pdf: a resource block
with the timestamp-derived `.pdf` URI, MIME type application/pdf and the
bytes base64-encoded; svg: a text block of the bytes decoded as
UTF-8. -/
theorem C4_success_reply_shape :
    ∀ (o : Oracle) (d : String) (f : Format) (m : Bool) (w : World) (bytes : List Nat),
      (generateDiagram o d f m o.now w).1 = Except.ok bytes →
      (renderMermaidHandler o d f m w).1 =
        Except.ok
          (match f with
            | Format.png => [ContentBlock.image mimePng (base64 bytes)]
            | Format.pdf =>
              [ContentBlock.resource (toString o.now ++ ".pdf") mimePdf (base64 bytes)]
            | Format.svg => [ContentBlock.text (utf8 bytes)]) := by
  intro o d f m w bytes h
  unfold renderMermaidHandler tryCatchS bindS pureS
  rcases hg : generateDiagram o d f m o.now w with ⟨r, w1⟩
  rw [hg] at h
  simp only at h
  subst h
  cases f <;> simp [hg]

/-- Witness for C4 at a concrete successful oracle, for the svg
format. -/
theorem C4_success_reply_shape_witness :
    (generateDiagram okOracle ("graph TD") Format.svg false okOracle.now emptyWorld).1
      = Except.ok [97, 98] ∧
    (renderMermaidHandler okOracle ("graph TD") Format.svg false emptyWorld).1
      = Except.ok [ContentBlock.text (utf8 [97, 98])] :=
  ⟨rfl,
    C4_success_reply_shape okOracle ("graph TD") Format.svg false emptyWorld [97, 98] rfl⟩

/-- C8: every failing `render_mermaid` call throws an `Error` whose
message is the localized diagram-generation-failure label, a colon and
space, and the underlying message text; the underlying text is the
thrown `Error`'s own message whenever there is one, and the generic
placeholder exactly when the thrown value carries no message. -/
theorem C8_failure_message :
    (∀ (o : Oracle) (d : String) (f : Format) (m : Bool) (w : World) (e : Thrown),
      (generateDiagram o d f m o.now w).1 = Except.error e →
      (renderMermaidHandler o d f m w).1 =
        Except.error (Thrown.err (genErrorLabel ++ ": " ++ renderErrMsg e))) ∧
    (∀ s : String, renderErrMsg (Thrown.err s) = s) ∧
    renderErrMsg Thrown.nonError = unknownErrorText := by
  refine ⟨?_, fun s => rfl, rfl⟩
  intro o d f m w e h
  unfold renderMermaidHandler tryCatchS bindS pureS throwS
  rcases hg : generateDiagram o d f m o.now w with ⟨r, w1⟩
  rw [hg] at h
  simp only at h
  subst h
  simp [hg]

/-- Witness for C8 at a concrete failing oracle. -/
theorem C8_failure_message_witness :
    (generateDiagram renderFailOracle ("graph TD") Format.svg false renderFailOracle.now
        emptyWorld).1 = Except.error (Thrown.err ("boom")) ∧
    (renderMermaidHandler renderFailOracle ("graph TD") Format.svg false emptyWorld).1
      = Except.error (Thrown.err (genErrorLabel ++ ": " ++ renderErrMsg (Thrown.err ("boom")))) :=
  ⟨rfl,
    C8_failure_message.1 renderFailOracle ("graph TD") Format.svg false emptyWorld
      (Thrown.err ("boom")) rfl⟩
